import Mathlib

/-!
Verification of the `Music` Discord cog (src/music.py): a shallow embedding
of the cog's command handlers and the Lavalink voice-client adapter, with
theorems checking the specification's claims against that embedding.

Modelling conventions:
* Python dict payloads become Lean structures; tracks and player state are
  records over `String`/`Nat`/`Bool`/`List`.
* A Python expression that can raise an uncaught exception is embedded as an
  `Except String` value whose error names the Python exception.
* The Lavalink player manager is a total map from guild ids to players; each
  command's effect on it is an explicit state transformer.
-/

namespace MusicCog

/- String literals of the source, bound to names so they can be applied. -/

def voiceServerTag : String := "VOICE_SERVER_UPDATE"

def voiceStateTag : String := "VOICE_STATE_UPDATE"

def nothingFoundMsg : String := "Nothing found!"

def playlistLoadedType : String := "PLAYLIST_LOADED"

def playlistEnqueuedTitle : String := "Playlist Enqueued!"

def trackEnqueuedTitle : String := "Track Enqueued"

def ytsearchTag : String := "ytsearch:"

def httpScheme : String := "http://"

def httpsScheme : String := "https://"

def wwwDot : String := "www."

def attributeErrorMsg : String := "AttributeError"

def eqSign : String := "="

def spaceSep : String := " "

def doubleSpace : String := "  "

/-! ## Voice-client adapter (`LavalinkVoiceClient`, src/music.py lines 43-59) -/

/-- The payload handed to `lavalink.voice_update_handler`: a dict with a
type tag `t` and the original event data under `d`. -/
structure LavalinkPayload (α : Type) where
  t : String
  d : α
deriving DecidableEq, Repr

/-- `LavalinkVoiceClient.on_voice_server_update`: wraps the event data as
`{'t': 'VOICE_SERVER_UPDATE', 'd': data}`. -/
def on_voice_server_update {α : Type} (data : α) : LavalinkPayload α :=
  { t := voiceServerTag, d := data }

/-- `LavalinkVoiceClient.on_voice_state_update`: wraps the event data as
`{'t': 'VOICE_STATE_UPDATE', 'd': data}`. -/
def on_voice_state_update {α : Type} (data : α) : LavalinkPayload α :=
  { t := voiceStateTag, d := data }

/-! ## The malformed source lines (src/music.py lines 178-179, 504, 595) -/

/-- src/music.py line 178, verbatim. -/
def srcLine178 : String :=
  "        client_credentials_manager = SpotifyClientCredentials(client_id=,"

/-- src/music.py line 179, verbatim. -/
def srcLine179 : String :=
  "                                                              client_secret=)"

/-- src/music.py line 504, verbatim (inside `Music.lyrics`). -/
def srcLine504 : String :=
  "        token ="

/-- src/music.py line 595, verbatim (inside `Music.lyricsuser`). -/
def srcLine595 : String :=
  "        token ="

/-- The characters after the last `=` of a line, or `none` when the line
has no `=` at all. -/
def rhsAfterLastEq : List Char → Option (List Char)
  | [] => none
  | c :: cs =>
    match rhsAfterLastEq cs with
    | some rest => some rest
    | none => if c = '=' then some cs else none

/-- A line contains an assignment or keyword argument with an empty
right-hand value: it has an `=` sign, and after the last `=` only
whitespace, a comma or a closing parenthesis follow.  In Python such a
line is a syntax error. -/
def hasEmptyAssignmentRhs (line : String) : Bool :=
  match rhsAfterLastEq line.data with
  | some rest => rest.all fun c => c = ' ' || c = ',' || c = ')'
  | none => false

/-! ## Player data model -/

/-- A queued or playing audio track, as the handlers read it: title, uri,
uploader, duration in milliseconds, stream flag, and the requesting user. -/
structure Track where
  title : String
  uri : String
  author : String
  duration : Nat
  stream : Bool
  requester : Nat
deriving DecidableEq, Repr

/-- The per-guild Lavalink `DefaultPlayer` state the cog's handlers touch:
queue, current track, playback position, volume, pause flag, repeat flag,
shuffle flag and the playing flag. -/
structure Player where
  queue : List Track
  current : Option Track
  position : Nat
  volume : Nat
  paused : Bool
  repeatFlag : Bool
  shuffle : Bool
  is_playing : Bool
deriving DecidableEq, Repr

/-- `player.set_pause(pause)`: sets the player's pause flag. -/
def set_pause (pause : Bool) (p : Player) : Player :=
  { p with paused := pause }

/-- The `pause` command body (src/music.py lines 373-377): its only player
effect is `await player.set_pause(True)`. -/
def pauseCmdP (p : Player) : Player := set_pause true p

/-- The `resume` command body (src/music.py lines 379-383): its only player
effect is `await player.set_pause(False)`. -/
def resumeCmdP (p : Player) : Player := set_pause false p

/-! ## URL test (`url_rx = re.compile(r'https?\x3a//(?:www\.)?.+')`, line 21) -/

/-- The scheme part `https?\x3a//` of `url_rx`, matched at the start of the
string; returns the remainder after the scheme when it matches. -/
def schemeRest (s : String) : Option String :=
  if s.startsWith httpsScheme then some (s.drop 8)
  else if s.startsWith httpScheme then some (s.drop 7)
  else none

/-- The `.+` part of `url_rx`: at least one character, and `.` does not
match a newline, so the first remaining character must not be `\n`. -/
def dotPlusMatch (r : String) : Bool :=
  match r.data with
  | [] => false
  | c :: _ => c != '\n'

/-- `url_rx.match(s)` as a Boolean: the string starts with `http://` or
`https://`, and the remainder matches `(?:www\.)?.+` (taking the optional
`www.` or not). -/
def url_rx_match (s : String) : Bool :=
  match schemeRest s with
  | none => false
  | some r => (r.startsWith wwwDot && dotPlusMatch (r.drop 4)) || dotPlusMatch r

/-! ## The `play` / `playuser` enqueue logic (src/music.py lines 229-269, 296-337) -/

/-- The Lavalink `get_tracks` response as the handlers read it: a load type,
the track list, and the playlist name used for the playlist embed. -/
structure LoadResult where
  loadType : String
  tracks : List Track
  playlistName : String
deriving DecidableEq, Repr

/-- The observable effect of the enqueue section of `Music.play`: the plain
text reply if any, the embed title if an embed was sent, the queue after the
handler ran, and whether `player.play()` was called. -/
structure PlayEffect where
  reply : Option String
  embedTitle : Option String
  queueAfter : List Track
  playCalled : Bool
deriving DecidableEq, Repr

/-- The enqueue section of `Music.play` (lines 229-269): on a falsy result
or an empty `tracks` list it replies `Nothing found!` and returns; on
`PLAYLIST_LOADED` it adds every track of the result to the queue and titles
the embed `Playlist Enqueued!`; otherwise it adds the first track and titles
the embed `Track Enqueued`; `player.play()` is called only when the player
is not already playing. -/
def playLoad (results : Option LoadResult) (p : Player) : PlayEffect :=
  match results with
  | none => ⟨some nothingFoundMsg, none, p.queue, false⟩
  | some r =>
    match r.tracks with
    | [] => ⟨some nothingFoundMsg, none, p.queue, false⟩
    | t :: ts =>
      if r.loadType = playlistLoadedType then
        ⟨none, some playlistEnqueuedTitle, p.queue ++ (t :: ts), !p.is_playing⟩
      else
        ⟨none, some trackEnqueuedTitle, p.queue ++ [t], !p.is_playing⟩

/-- The enqueue section of `Music.playuser` (lines 296-337), which repeats
the body of `Music.play` verbatim inside the Spotify-activity branch. -/
def playuserLoad (results : Option LoadResult) (p : Player) : PlayEffect :=
  match results with
  | none => ⟨some nothingFoundMsg, none, p.queue, false⟩
  | some r =>
    match r.tracks with
    | [] => ⟨some nothingFoundMsg, none, p.queue, false⟩
    | t :: ts =>
      if r.loadType = playlistLoadedType then
        ⟨none, some playlistEnqueuedTitle, p.queue ++ (t :: ts), !p.is_playing⟩
      else
        ⟨none, some trackEnqueuedTitle, p.queue ++ [t], !p.is_playing⟩

/-! ## Spotify activities (`Music.playuser`, `Music.lyricsuser`) -/

/-- A Spotify presence activity: the fields `activity.title` and
`activity.artist` the handlers read. -/
structure SpotifyActivity where
  title : String
  artist : String
deriving DecidableEq, Repr

/-- A member's activity: either a Spotify activity or some other kind
(the `isinstance(activity, Spotify)` test). -/
inductive Activity : Type
  | spotify (a : SpotifyActivity)
  | other
deriving DecidableEq, Repr

/-- The track query `Music.playuser` composes for a Spotify activity
(lines 283-293): `f'{activity.title} {activity.artist}'`, prefixed with
`ytsearch:` when it does not match `url_rx`.  (The inner
`try: ... except:` around the `ytsearch:` f-string cannot fail, so the
`scsearch:` branch is dead.) -/
def spotifyTrackQuery (a : SpotifyActivity) : String :=
  let query := a.title ++ spaceSep ++ a.artist
  if url_rx_match query then query else ytsearchTag ++ query

/-- The track queries `Music.playuser` forwards to the audio node while
looping over a member's activities: one per Spotify activity, in order. -/
def playuserQueries (acts : List Activity) : List String :=
  acts.filterMap fun x =>
    match x with
    | Activity.spotify a => some (spotifyTrackQuery a)
    | Activity.other => none

/-- The song strings `Music.lyricsuser` hands to `genius.search_song`
while looping over a member's activities (lines 598-602): exactly
`f'{activity.title}'` for each Spotify activity. -/
def lyricsuserSearches (acts : List Activity) : List String :=
  acts.filterMap fun x =>
    match x with
    | Activity.spotify a => some a.title
    | Activity.other => none

/-! ## The `lyrics` command (src/music.py lines 502-591) -/

/-- Helper for `pySplit`: scan the characters, accumulating the current
word in reverse; whitespace ends a word, and empty pieces are dropped. -/
def pySplitAux : List Char → List Char → List String
  | [], [] => []
  | [], acc => [String.mk acc.reverse]
  | c :: cs, acc =>
    if c.isWhitespace then
      match acc with
      | [] => pySplitAux cs []
      | _ => String.mk acc.reverse :: pySplitAux cs []
    else pySplitAux cs (c :: acc)

/-- Python's `str.split()` with no argument: split on runs of whitespace,
discarding empty pieces. -/
def pySplit (s : String) : List String :=
  pySplitAux s.data []

/-- The first stopword list of `Music.lyrics` (line 510), used by the
`try` branch that computes `titles`. -/
def stopwords : List String :=
  [ "(Lyrics)", "Official", "Video", "(Official Video)", "lyrics",
    " (Audio)", "(Official Music Video)" ]

/-- Lines 509-515: `titles` is the current track's title split into words,
with the words of `stopwords` removed, re-joined by single spaces. -/
def cleanTitle (title : String) : String :=
  String.intercalate spaceSep ((pySplit title).filter fun w => w ∉ stopwords)

/-- One truncated word-count guess of the fallback chain: index the words
`titles.split()[0]` … `titles.split()[n-1]` (failing — an `IndexError` —
when the title has fewer than `n` words) and join them with two spaces as
the `"{}  {}  …"` format string does. -/
def truncGuess (n : Nat) (titles : String) : Option String :=
  let ws := pySplit titles
  if n ≤ ws.length then some (String.intercalate doubleSpace (ws.take n)) else none

/-- The nested `try`/`except` fallback chain of `Music.lyrics`
(lines 547-582): try a 6-word guess, then 5, 4, 3, 2 words; when even the
two-word guess raises, the handler sends `Lyrics not Found` (modelled as
`none`). -/
def lyricsFallback (titles : String) : Option String :=
  match truncGuess 6 titles with
  | some s => some s
  | none =>
    match truncGuess 5 titles with
    | some s => some s
    | none =>
      match truncGuess 4 titles with
      | some s => some s
      | none =>
        match truncGuess 3 titles with
        | some s => some s
        | none =>
          match truncGuess 2 titles with
          | some s => some s
          | none => none

/-- Outcome of a `genius.search_song` call as the handler observes it:
either usable lyrics, or a failure (a raised exception, or a `None` result
whose `.lyrics` access then raises — both land in the `except` branch). -/
inductive GeniusResult : Type
  | found (lyrics : String)
  | failure
deriving DecidableEq, Repr

/-- What the `song is None`, `spotify == False` branch of `Music.lyrics`
observably does: sends a lyrics embed, composes a truncated search query
(which the code then never uses), or sends `Lyrics not Found`. -/
inductive LyricsOutcome : Type
  | sentEmbed (title description : String)
  | composedQuery (search : String)
  | sentNotFound
deriving DecidableEq, Repr

/-- The `song is None`, `spotify == False` branch of `Music.lyrics`
(lines 536-582): first try `genius.search_song(lyricstitle)` and send its
lyrics in an embed titled with the current track's title; when that `try`
fails, run the truncated word-count fallback chain over the cleaned title. -/
def lyricsNoSongSpotifyOff (searchSong : String → GeniusResult)
    (lyricstitle currentTitle : String) : LyricsOutcome :=
  let titles := cleanTitle currentTitle
  match searchSong lyricstitle with
  | GeniusResult.found l => LyricsOutcome.sentEmbed currentTitle l
  | GeniusResult.failure =>
    match lyricsFallback titles with
    | some s => LyricsOutcome.composedQuery s
    | none => LyricsOutcome.sentNotFound

/-! ## The `current` command (src/music.py lines 407-440) -/

/-- The fields of the now-playing embed that `Music.current` builds. -/
structure NowPlayingEmbed where
  description : String
  uploader : String
  trackUrl : String
  requester : Nat
  volumeField : String
deriving DecidableEq, Repr

/-- `lavalink.format_time(ms)`: milliseconds rendered as
zero-padded `hh:mm:ss`. -/
def format_time (ms : Nat) : String :=
  let total := ms / 1000
  let hours := total / 3600
  let minutes := total % 3600 / 60
  let seconds := total % 60
  let pad := fun (n : Nat) => if n < 10 then "0" ++ toString n else toString n
  pad hours ++ ":" ++ pad minutes ++ ":" ++ pad seconds

/-- `Music.current`: the `if player.current:` guard wraps only the
position/duration computation; the embed construction then dereferences
`player.current.title` (and `.author`, `.uri`, `.requester`)
unconditionally, which on a `None` current raises `AttributeError`. -/
def currentCmd (p : Player) : Except String NowPlayingEmbed :=
  let posDur : Option (String × String) :=
    match p.current with
    | some t =>
      some (format_time p.position,
            if t.stream then "LIVE" else format_time t.duration)
    | none => none
  match p.current with
  | none => Except.error attributeErrorMsg
  | some t =>
    match posDur with
    | none => Except.error attributeErrorMsg
    | some _ =>
      Except.ok
        { description := t.title
          uploader := t.author
          trackUrl := "[Click](" ++ t.uri ++ ")"
          requester := t.requester
          volumeField := toString p.volume ++ "%" }

/-! ## The `queue` command (src/music.py lines 448-474) -/

/-- One line of the queue listing:
a backquoted 1-based index, then the bold linked title, then a newline. -/
def queueLine (i : Nat) (t : Track) : String :=
  "`" ++ toString (i + 1) ++ ".` [**" ++ t.title ++ "**](" ++ t.uri ++ ")\n"

/-- The first loop of `Music.queue`: `queuetime` is reassigned to
`lavalink.format_time(track.duration)` for each track of the page slice,
so only the last assignment survives; it stays unbound on an empty slice. -/
def queuetimeLoop : Option String → List Track → Option String
  | acc, [] => acc
  | _, t :: ts => queuetimeLoop (some (format_time t.duration)) ts

/-- The second loop of `Music.queue`: `queue_list` accumulates one
`queueLine` per track of the page slice, with `enumerate(..., start=start)`
indices. -/
def queueListLoop : String → Nat → List Track → String
  | acc, _, [] => acc
  | acc, i, t :: ts => queueListLoop (acc ++ queueLine i t) (i + 1) ts

/-- What `Music.queue` observably does: the empty-queue reply, a sent embed
(description and footer), or a `NameError` when `queuetime` was never
assigned because the page slice is empty. -/
inductive QueueOutcome : Type
  | nothingQueued
  | sent (description footer : String)
  | nameError
deriving DecidableEq, Repr

/-- `Music.queue` (lines 448-474): on an empty queue, reply and return;
otherwise compute `pages = ceil(len(queue)/10)`, slice the queue at
`[(page-1)*10 : (page-1)*10 + 10]`, run the two loops, and send the embed
whose description holds the track count, `total queue time = {queuetime}`
and the listing, with footer `Viewing page {page}/{pages}`. -/
def queueCmd (page : Nat) (p : Player) : QueueOutcome :=
  if p.queue = [] then QueueOutcome.nothingQueued
  else
    let pages := (p.queue.length + 9) / 10
    let start := (page - 1) * 10
    let slice := (p.queue.drop start).take 10
    match queuetimeLoop none slice with
    | none => QueueOutcome.nameError
    | some qt =>
      QueueOutcome.sent
        ("**" ++ toString p.queue.length ++ " tracks**\ntotal queue time = "
          ++ qt ++ "\n\n" ++ queueListLoop "" start slice)
        ("Viewing page " ++ toString page ++ "/" ++ toString pages)

/-! ## Guild-keyed player manager (C5) -/

/-- A Discord guild id. -/
abbrev GuildId := Nat

/-- The Lavalink client's `player_manager`, modelled as a total map from
guild ids to player states. -/
abbrev PlayerManager := GuildId → Player

/-- `player_manager.get(guild_id)` / `player_manager.create(guild_id)`:
look up the player stored for a guild. -/
def managerGet (m : PlayerManager) (g : GuildId) : Player := m g

/-- Store an updated player under its guild id, leaving every other
guild's entry untouched. -/
def managerSet (m : PlayerManager) (g : GuildId) (p : Player) : PlayerManager :=
  fun g2 => if g2 = g then p else m g2

/-- A command handler's manager-level shape: fetch the player at
`ctx.guild.id`, apply the handler's player effect, store it back. -/
def runOnGuild (f : Player → Player) (g : GuildId) (m : PlayerManager) : PlayerManager :=
  managerSet m g (f (managerGet m g))

/-- `volume` (lines 385-389): `await player.set_volume(volume)`, the
volume update delegated to the audio client. -/
def volumeCmdP (v : Nat) (p : Player) : Player := { p with volume := v }

/-- `loop` (lines 391-395): `player.set_repeat(True)`. -/
def loopCmdP (p : Player) : Player := { p with repeatFlag := true }

/-- `unloop` (lines 397-405): `player.set_repeat(False)` only when the
repeat flag is set; otherwise only a chat reply. -/
def unloopCmdP (p : Player) : Player :=
  if p.repeatFlag then { p with repeatFlag := false } else p

/-- `shuffle` (lines 491-500): toggles `player.shuffle` when something is
playing; otherwise only a chat reply. -/
def shuffleCmdP (p : Player) : Player :=
  if p.is_playing then { p with shuffle := !p.shuffle } else p

/-- `remove` (lines 476-489): pops `queue[index-1]` when the queue is
non-empty and `1 ≤ index ≤ len(queue)`; otherwise only a chat reply. -/
def removeCmdP (index : Nat) (p : Player) : Player :=
  if p.queue = [] then p
  else if p.queue.length < index ∨ index < 1 then p
  else { p with queue := p.queue.eraseIdx (index - 1) }

/-- `skip` (lines 442-446): `await player.skip()`, delegated to the audio
client, which advances to the next queued track. -/
def skipCmdP (p : Player) : Player :=
  { p with current := p.queue.head?, queue := p.queue.tail }

/-- The player effect of `disconnect` (lines 611-632):
`player.queue.clear()` then `await player.stop()`. -/
def disconnectCmdP (p : Player) : Player :=
  { p with queue := [], current := none, is_playing := false }

/-- The player-queue effect of the enqueue section of `play`; the
playback start itself is delegated to the audio client. -/
def playCmdP (results : Option LoadResult) (p : Player) : Player :=
  { p with queue := (playLoad results p).queueAfter }

/- Each command at the manager level: every handler keys the manager by
the invoking context's guild id. -/

def pauseCmdM (g : GuildId) (m : PlayerManager) : PlayerManager :=
  runOnGuild pauseCmdP g m

def resumeCmdM (g : GuildId) (m : PlayerManager) : PlayerManager :=
  runOnGuild resumeCmdP g m

def volumeCmdM (v : Nat) (g : GuildId) (m : PlayerManager) : PlayerManager :=
  runOnGuild (volumeCmdP v) g m

def loopCmdM (g : GuildId) (m : PlayerManager) : PlayerManager :=
  runOnGuild loopCmdP g m

def unloopCmdM (g : GuildId) (m : PlayerManager) : PlayerManager :=
  runOnGuild unloopCmdP g m

def shuffleCmdM (g : GuildId) (m : PlayerManager) : PlayerManager :=
  runOnGuild shuffleCmdP g m

def removeCmdM (index : Nat) (g : GuildId) (m : PlayerManager) : PlayerManager :=
  runOnGuild (removeCmdP index) g m

def skipCmdM (g : GuildId) (m : PlayerManager) : PlayerManager :=
  runOnGuild skipCmdP g m

def disconnectCmdM (g : GuildId) (m : PlayerManager) : PlayerManager :=
  runOnGuild disconnectCmdP g m

def playCmdM (results : Option LoadResult) (g : GuildId) (m : PlayerManager) : PlayerManager :=
  runOnGuild (playCmdP results) g m

/-- Python list indexing `l[i]`: a non-negative index counts from the
front, a negative index from the back, and an out-of-range index raises
`IndexError` (modelled as `none`). -/
def pyIndex {α : Type} (l : List α) (i : Int) : Option α :=
  if 0 ≤ i then l.get? i.toNat
  else if -i ≤ (l.length : Int) then l.get? (l.length - (-i).toNat)
  else none

/-- The player effect of `search_music` (lines 341-371): take the first 10
tracks of the node result, index them by the user's reply minus one with
Python indexing, and `player.add` the chosen track.  A `None` result (a
`TypeError` at `results['tracks']`) or an out-of-range choice (an
`IndexError`) aborts the handler before any mutation; the playback start is
delegated to the audio client. -/
def searchMusicCmdP (results : Option LoadResult) (choice : Int) (p : Player) : Player :=
  match results with
  | none => p
  | some r =>
    match pyIndex (r.tracks.take 10) (choice - 1) with
    | some t => { p with queue := p.queue ++ [t] }
    | none => p

/-- The player effect of `playuser` (lines 271-337): loop over the member's
activities; each Spotify activity runs the enqueue section (`playuserLoad`)
on the node result for its composed track query, except that a falsy result
or empty track list sends `Nothing found!` and returns from the whole
handler, stopping the loop with the player untouched by that iteration. -/
def playuserCmdP (getTracks : String → Option LoadResult) :
    List Activity → Player → Player
  | [], p => p
  | Activity.other :: rest, p => playuserCmdP getTracks rest p
  | Activity.spotify a :: rest, p =>
    let eff := playuserLoad (getTracks (spotifyTrackQuery a)) p
    match eff.reply with
    | some _ => { p with queue := eff.queueAfter }
    | none => playuserCmdP getTracks rest { p with queue := eff.queueAfter }

/-- The player read of `lyrics` when invoked with no song argument and
Spotify mode off (lines 502-582): the handler reads `player.current.title`
— an `AttributeError` when nothing is playing, since the `except` branch
dereferences it again — and otherwise runs the stored-title search and
fallback chain.  It never mutates the player. -/
def lyricsCmdRead (searchSong : String → GeniusResult) (lyricstitle : String)
    (p : Player) : Except String LyricsOutcome :=
  match p.current with
  | none => Except.error attributeErrorMsg
  | some t => Except.ok (lyricsNoSongSpotifyOff searchSong lyricstitle t.title)

def searchMusicCmdM (results : Option LoadResult) (choice : Int)
    (g : GuildId) (m : PlayerManager) : PlayerManager :=
  runOnGuild (searchMusicCmdP results choice) g m

def playuserCmdM (getTracks : String → Option LoadResult) (acts : List Activity)
    (g : GuildId) (m : PlayerManager) : PlayerManager :=
  runOnGuild (playuserCmdP getTracks acts) g m

/-- The read-only `lyrics` command at the manager level: it reads only the
player stored under the invoking guild id. -/
def lyricsCmdM (searchSong : String → GeniusResult) (lyricstitle : String)
    (g : GuildId) (m : PlayerManager) : Except String LyricsOutcome :=
  lyricsCmdRead searchSong lyricstitle (managerGet m g)

/-- The read-only `queue` command at the manager level: it reads only the
player stored under the invoking guild id. -/
def queueCmdM (page : Nat) (g : GuildId) (m : PlayerManager) : QueueOutcome :=
  queueCmd page (managerGet m g)

/-- The read-only `current` command at the manager level. -/
def currentCmdM (g : GuildId) (m : PlayerManager) : Except String NowPlayingEmbed :=
  currentCmd (managerGet m g)

/-! ## Sample values used by witnesses -/

/-- A fresh player: empty queue, nothing playing. -/
def samplePlayer : Player :=
  { queue := [], current := none, position := 0, volume := 100,
    paused := false, repeatFlag := false, shuffle := false, is_playing := false }

/-- A sample track. -/
def sampleTrack1 : Track :=
  { title := "First Song", uri := "https://example.org/1", author := "A",
    duration := 61000, stream := false, requester := 7 }

/-- Another sample track. -/
def sampleTrack2 : Track :=
  { title := "Second Song", uri := "https://example.org/2", author := "B",
    duration := 30000, stream := false, requester := 7 }

/-- A player with two queued tracks. -/
def sampleQueuePlayer : Player :=
  { samplePlayer with queue := [sampleTrack1, sampleTrack2] }

/-- A sample playlist load result. -/
def sampleResult : LoadResult :=
  { loadType := playlistLoadedType, tracks := [sampleTrack1, sampleTrack2],
    playlistName := "Mix" }

/-! ## Theorems -/

/-- C2: the voice-client adapter relays voice events by a pure field remap:
`on_voice_server_update` forwards exactly `{'t': 'VOICE_SERVER_UPDATE', 'd': data}`
and `on_voice_state_update` forwards exactly `{'t': 'VOICE_STATE_UPDATE', 'd': data}`,
with the original payload passed through unaltered as the `d` field. -/
theorem voice_event_relay {α : Type} (data : α) :
    on_voice_server_update data = { t := voiceServerTag, d := data } ∧
    on_voice_state_update data = { t := voiceStateTag, d := data } ∧
    (on_voice_server_update data).d = data ∧
    (on_voice_state_update data).d = data :=
  ⟨rfl, rfl, rfl, rfl⟩

/-- C3: the source lines at 178-179 (the Spotify credentials in `Music.play`),
504 (`Music.lyrics`) and 595 (`Music.lyricsuser`) each contain a keyword
argument or assignment with an empty right-hand value (`client_id=,`,
`client_secret=)`, `token =`), which is a Python syntax error: the module
cannot be compiled, so no command handler in it can execute. -/
theorem placeholder_credentials_empty_rhs :
    hasEmptyAssignmentRhs srcLine178 = true ∧
    hasEmptyAssignmentRhs srcLine179 = true ∧
    hasEmptyAssignmentRhs srcLine504 = true ∧
    hasEmptyAssignmentRhs srcLine595 = true := by
  refine ⟨?_, ?_, ?_, ?_⟩ <;> decide

/-- C7: pause and resume are pure delegations to `player.set_pause`: the
pause command sets the pause flag to true, the resume command sets it to
false, and both leave the queue, the current track, the position, the
volume, the repeat flag, the shuffle flag and the playing flag unchanged. -/
theorem pause_resume_pure_delegation (p : Player) :
    (pauseCmdP p).paused = true ∧ (resumeCmdP p).paused = false ∧
    (pauseCmdP p).queue = p.queue ∧ (resumeCmdP p).queue = p.queue ∧
    (pauseCmdP p).current = p.current ∧ (resumeCmdP p).current = p.current ∧
    (pauseCmdP p).position = p.position ∧ (resumeCmdP p).position = p.position ∧
    (pauseCmdP p).volume = p.volume ∧ (resumeCmdP p).volume = p.volume ∧
    (pauseCmdP p).repeatFlag = p.repeatFlag ∧ (resumeCmdP p).repeatFlag = p.repeatFlag ∧
    (pauseCmdP p).shuffle = p.shuffle ∧ (resumeCmdP p).shuffle = p.shuffle ∧
    (pauseCmdP p).is_playing = p.is_playing ∧ (resumeCmdP p).is_playing = p.is_playing := by
  refine ⟨rfl, rfl, rfl, rfl, rfl, rfl, rfl, rfl, rfl, rfl, rfl, rfl, rfl, rfl, rfl, rfl⟩

/-- C8: when no track is playing (`player.current` is `None`), the
`current` command fails with an `AttributeError` instead of replying: the
embed construction dereferences `player.current.title` unconditionally. -/
theorem current_none_attribute_error (p : Player) (h : p.current = none) :
    currentCmd p = Except.error attributeErrorMsg := by
  simp [currentCmd, h]

/-- Witness for C8 at a concrete player with no current track. -/
theorem current_none_attribute_error_witness :
    currentCmd samplePlayer = Except.error attributeErrorMsg :=
  current_none_attribute_error samplePlayer rfl

/-- C9: the play and playuser commands are atomic on lookup failure: when
the node returns a falsy result or an empty track list, the handler replies
`Nothing found!` and returns, with the queue unchanged, no embed sent and
playback not started. -/
theorem play_atomic_on_failure (res : Option LoadResult) (p : Player)
    (h : res = none ∨ ∃ r, res = some r ∧ r.tracks = []) :
    playLoad res p = ⟨some nothingFoundMsg, none, p.queue, false⟩ ∧
    playuserLoad res p = ⟨some nothingFoundMsg, none, p.queue, false⟩ := by
  rcases h with rfl | ⟨r, rfl, ht⟩
  · exact ⟨rfl, rfl⟩
  · rcases r with ⟨lt, tr, pn⟩
    cases tr with
    | nil => exact ⟨rfl, rfl⟩
    | cons a as => exact absurd ht (List.cons_ne_nil a as)

/-- Witness for C9 at a falsy (None) node result. -/
theorem play_atomic_on_failure_witness :
    playLoad none sampleQueuePlayer =
      ⟨some nothingFoundMsg, none, sampleQueuePlayer.queue, false⟩ ∧
    playuserLoad none sampleQueuePlayer =
      ⟨some nothingFoundMsg, none, sampleQueuePlayer.queue, false⟩ :=
  play_atomic_on_failure none sampleQueuePlayer (Or.inl rfl)

/-- C4: on a successful lookup, `PLAYLIST_LOADED` results enqueue every
track of the result in order under the title `Playlist Enqueued!`; any
other load type enqueues exactly the first track under `Track Enqueued`;
and `player.play()` is invoked exactly when the player is not already
playing. -/
theorem play_enqueue_by_loadType (r : LoadResult) (p : Player) (h : r.tracks ≠ []) :
    (r.loadType = playlistLoadedType →
      (playLoad (some r) p).queueAfter = p.queue ++ r.tracks ∧
      (playLoad (some r) p).embedTitle = some playlistEnqueuedTitle) ∧
    (r.loadType ≠ playlistLoadedType →
      ∃ t ts, r.tracks = t :: ts ∧
        (playLoad (some r) p).queueAfter = p.queue ++ [t] ∧
        (playLoad (some r) p).embedTitle = some trackEnqueuedTitle) ∧
    (playLoad (some r) p).playCalled = !p.is_playing := by
  rcases r with ⟨lt, tr, pn⟩
  cases tr with
  | nil => exact absurd rfl h
  | cons t ts =>
    by_cases hlt : lt = playlistLoadedType
    · refine ⟨fun _ => ⟨?_, ?_⟩, fun hc => absurd hlt hc, ?_⟩ <;>
        simp [playLoad, hlt]
    · refine ⟨fun hc => absurd hc hlt, fun _ => ⟨t, ts, rfl, ?_, ?_⟩, ?_⟩ <;>
        simp [playLoad, hlt]

/-- Witness for C4 at a concrete playlist result. -/
theorem play_enqueue_by_loadType_witness :
    (sampleResult.loadType = playlistLoadedType →
      (playLoad (some sampleResult) samplePlayer).queueAfter =
        samplePlayer.queue ++ sampleResult.tracks ∧
      (playLoad (some sampleResult) samplePlayer).embedTitle =
        some playlistEnqueuedTitle) ∧
    (sampleResult.loadType ≠ playlistLoadedType →
      ∃ t ts, sampleResult.tracks = t :: ts ∧
        (playLoad (some sampleResult) samplePlayer).queueAfter =
          samplePlayer.queue ++ [t] ∧
        (playLoad (some sampleResult) samplePlayer).embedTitle =
          some trackEnqueuedTitle) ∧
    (playLoad (some sampleResult) samplePlayer).playCalled =
      !samplePlayer.is_playing :=
  play_enqueue_by_loadType sampleResult samplePlayer (by decide)

/-- A sample Spotify activity. -/
def sampleActivity : SpotifyActivity :=
  { title := "Blinding Lights", artist := "The Weeknd" }

/-- A sample activity list with a non-Spotify activity first. -/
def sampleActivities : List Activity :=
  [Activity.other, Activity.spotify sampleActivity]

/-- C6: for every member activity list containing a Spotify activity, the
playuser track query forwarded to the node for that activity is exactly the
activity's title, a space, and the activity's artist — prefixed with
`ytsearch:` when it does not match the URL regex — and the lyricsuser
command searches the lyrics API with exactly the activity's title. -/
theorem playuser_spotify_query (acts : List Activity) (a : SpotifyActivity)
    (hmem : Activity.spotify a ∈ acts) :
    spotifyTrackQuery a ∈ playuserQueries acts ∧
    spotifyTrackQuery a =
      (if url_rx_match (a.title ++ spaceSep ++ a.artist) then
        a.title ++ spaceSep ++ a.artist
       else ytsearchTag ++ (a.title ++ spaceSep ++ a.artist)) ∧
    a.title ∈ lyricsuserSearches acts := by
  refine ⟨?_, rfl, ?_⟩
  · exact List.mem_filterMap.mpr ⟨Activity.spotify a, hmem, rfl⟩
  · exact List.mem_filterMap.mpr ⟨Activity.spotify a, hmem, rfl⟩

/-- Witness for C6 at a concrete activity list. -/
theorem playuser_spotify_query_witness :
    spotifyTrackQuery sampleActivity ∈ playuserQueries sampleActivities ∧
    spotifyTrackQuery sampleActivity =
      (if url_rx_match (sampleActivity.title ++ spaceSep ++ sampleActivity.artist) then
        sampleActivity.title ++ spaceSep ++ sampleActivity.artist
       else ytsearchTag ++ (sampleActivity.title ++ spaceSep ++ sampleActivity.artist)) ∧
    sampleActivity.title ∈ lyricsuserSearches sampleActivities :=
  playuser_spotify_query sampleActivities sampleActivity
    (List.mem_cons_of_mem _ (List.mem_singleton.mpr rfl))

/-- C5: player state is keyed per guild.  Every command handler of the cog
that touches a player does so through the entry at the invoking context's
guild id: each mutating command's manager-level action (pause, resume,
loop, unloop, shuffle, skip, disconnect, volume, remove, play,
search_music, playuser) leaves every other guild's player untouched, and
the read-only commands (queue, current, lyrics) depend only on the invoking
guild's entry.  The remaining handlers, `join` and `lyricsuser`, never
access the player manager at all. -/
theorem guild_keyed_isolation (g g2 : GuildId) (m : PlayerManager) (hne : g2 ≠ g) :
    pauseCmdM g m g2 = m g2 ∧
    resumeCmdM g m g2 = m g2 ∧
    loopCmdM g m g2 = m g2 ∧
    unloopCmdM g m g2 = m g2 ∧
    shuffleCmdM g m g2 = m g2 ∧
    skipCmdM g m g2 = m g2 ∧
    disconnectCmdM g m g2 = m g2 ∧
    (∀ v, volumeCmdM v g m g2 = m g2) ∧
    (∀ index, removeCmdM index g m g2 = m g2) ∧
    (∀ res, playCmdM res g m g2 = m g2) ∧
    (∀ res choice, searchMusicCmdM res choice g m g2 = m g2) ∧
    (∀ gt acts, playuserCmdM gt acts g m g2 = m g2) ∧
    (∀ page m2, m g = m2 g → queueCmdM page g m = queueCmdM page g m2) ∧
    (∀ m2, m g = m2 g → currentCmdM g m = currentCmdM g m2) ∧
    (∀ ss lt m2, m g = m2 g →
      lyricsCmdM ss lt g m = lyricsCmdM ss lt g m2) := by
  have frame : ∀ f : Player → Player, runOnGuild f g m g2 = m g2 := by
    intro f
    simp [runOnGuild, managerSet, managerGet, hne]
  refine ⟨frame _, frame _, frame _, frame _, frame _, frame _, frame _,
    fun v => frame _, fun index => frame _, fun res => frame _,
    fun res choice => frame _, fun gt acts => frame _, ?_, ?_, ?_⟩
  · intro page m2 h
    simp [queueCmdM, managerGet, h]
  · intro m2 h
    simp [currentCmdM, managerGet, h]
  · intro ss lt m2 h
    simp [lyricsCmdM, managerGet, h]

/-- Witness for C5 at concrete guild ids 1 and 2. -/
theorem guild_keyed_isolation_witness :
    pauseCmdM 1 (fun _ => samplePlayer) 2 = samplePlayer ∧
    resumeCmdM 1 (fun _ => samplePlayer) 2 = samplePlayer ∧
    loopCmdM 1 (fun _ => samplePlayer) 2 = samplePlayer ∧
    unloopCmdM 1 (fun _ => samplePlayer) 2 = samplePlayer ∧
    shuffleCmdM 1 (fun _ => samplePlayer) 2 = samplePlayer ∧
    skipCmdM 1 (fun _ => samplePlayer) 2 = samplePlayer ∧
    disconnectCmdM 1 (fun _ => samplePlayer) 2 = samplePlayer ∧
    (∀ v, volumeCmdM v 1 (fun _ => samplePlayer) 2 = samplePlayer) ∧
    (∀ index, removeCmdM index 1 (fun _ => samplePlayer) 2 = samplePlayer) ∧
    (∀ res, playCmdM res 1 (fun _ => samplePlayer) 2 = samplePlayer) ∧
    (∀ res choice, searchMusicCmdM res choice 1 (fun _ => samplePlayer) 2 = samplePlayer) ∧
    (∀ gt acts, playuserCmdM gt acts 1 (fun _ => samplePlayer) 2 = samplePlayer) ∧
    (∀ page m2, samplePlayer = m2 1 →
      queueCmdM page 1 (fun _ => samplePlayer) = queueCmdM page 1 m2) ∧
    (∀ m2, samplePlayer = m2 1 →
      currentCmdM 1 (fun _ => samplePlayer) = currentCmdM 1 m2) ∧
    (∀ ss lt m2, samplePlayer = m2 1 →
      lyricsCmdM ss lt 1 (fun _ => samplePlayer) = lyricsCmdM ss lt 1 m2) :=
  guild_keyed_isolation 1 2 (fun _ => samplePlayer) (by decide)

/-- C1: with no song argument and Spotify mode off, when the search with
the stored play-query title fails, the lyrics handler composes its query by
the fallback chain of truncated word-count guesses over the cleaned current
title: the first 6 words joined, else the first 5, 4, 3, 2 in turn, and
`Lyrics not Found` only when even a two-word truncation cannot be formed. -/
theorem lyrics_fallback_chain (searchSong : String → GeniusResult)
    (lyricstitle currentTitle : String) (ws : List String)
    (hws : ws = pySplit (cleanTitle currentTitle))
    (hfail : searchSong lyricstitle = GeniusResult.failure) :
    lyricsNoSongSpotifyOff searchSong lyricstitle currentTitle =
      (if 6 ≤ ws.length then
        LyricsOutcome.composedQuery (String.intercalate doubleSpace (ws.take 6))
       else if 5 ≤ ws.length then
        LyricsOutcome.composedQuery (String.intercalate doubleSpace (ws.take 5))
       else if 4 ≤ ws.length then
        LyricsOutcome.composedQuery (String.intercalate doubleSpace (ws.take 4))
       else if 3 ≤ ws.length then
        LyricsOutcome.composedQuery (String.intercalate doubleSpace (ws.take 3))
       else if 2 ≤ ws.length then
        LyricsOutcome.composedQuery (String.intercalate doubleSpace (ws.take 2))
       else LyricsOutcome.sentNotFound) := by
  subst hws
  simp only [lyricsNoSongSpotifyOff, hfail, lyricsFallback, truncGuess]
  by_cases h6 : 6 ≤ (pySplit (cleanTitle currentTitle)).length <;>
    by_cases h5 : 5 ≤ (pySplit (cleanTitle currentTitle)).length <;>
      by_cases h4 : 4 ≤ (pySplit (cleanTitle currentTitle)).length <;>
        by_cases h3 : 3 ≤ (pySplit (cleanTitle currentTitle)).length <;>
          by_cases h2 : 2 ≤ (pySplit (cleanTitle currentTitle)).length <;>
            simp [h6, h5, h4, h3, h2]

/-- A sample stored play query. -/
def sampleStoredQuery : String := "never gonna give you up rick astley"

/-- A sample current-track title whose cleaned form has seven words. -/
def sampleLyricTitle : String := "Never Gonna Give You Up Rick Astley (Lyrics)"

/-- The six-word truncation the fallback chain composes for
`sampleLyricTitle`. -/
def sixWordGuess : String := "Never  Gonna  Give  You  Up  Rick"

/-- Witness for C1 at a concrete failing search and seven-word title. -/
theorem lyrics_fallback_chain_witness :
    lyricsNoSongSpotifyOff (fun _ => GeniusResult.failure)
      sampleStoredQuery sampleLyricTitle =
      LyricsOutcome.composedQuery sixWordGuess := by
  have h := lyrics_fallback_chain (fun _ => GeniusResult.failure)
    sampleStoredQuery sampleLyricTitle
    (pySplit (cleanTitle sampleLyricTitle)) rfl rfl
  rw [h]
  decide

/-- The first queue loop keeps only the last assignment: over a non-empty
page slice, `queuetime` ends as the formatted duration of the slice's last
track; over an empty slice it keeps its initial (unbound) state. -/
theorem queuetimeLoop_getLast (l : List Track) (acc : Option String) :
    queuetimeLoop acc l =
      (match l.getLast? with
       | some t => some (format_time t.duration)
       | none => acc) := by
  induction l generalizing acc with
  | nil => rfl
  | cons a as ih =>
    cases as with
    | nil => rfl
    | cons b bs =>
      rw [List.getLast?_cons_cons]
      exact ih (some (format_time a.duration))

/-- C10: for a non-empty queue and a page number within range, the queue
embed's `total queue time` is `format_time` of the duration of the last
track of the displayed page slice only; the page count is
`ceil(len(queue)/10)`; and the listing renders exactly the slice
`queue[(page-1)*10 : (page-1)*10+10]` with `enumerate` starting at the
original zero-based position `(page-1)*10`, printed one-based. -/
theorem queue_time_is_last_of_page (p : Player) (page : Nat)
    (h1 : p.queue ≠ []) (h2 : 1 ≤ page)
    (h3 : page ≤ (p.queue.length + 9) / 10) :
    ∃ t, ((p.queue.drop ((page - 1) * 10)).take 10).getLast? = some t ∧
      queueCmd page p =
        QueueOutcome.sent
          ("**" ++ toString p.queue.length ++ " tracks**\ntotal queue time = "
            ++ format_time t.duration ++ "\n\n"
            ++ queueListLoop "" ((page - 1) * 10)
                ((p.queue.drop ((page - 1) * 10)).take 10))
          ("Viewing page " ++ toString page ++ "/"
            ++ toString ((p.queue.length + 9) / 10)) := by
  have hq : 1 ≤ p.queue.length := List.length_pos.mpr h1
  have h10 : page * 10 ≤ p.queue.length + 9 :=
    (Nat.le_div_iff_mul_le (by norm_num)).mp h3
  have hlt : (page - 1) * 10 < p.queue.length := by omega
  have hdrop : p.queue.drop ((page - 1) * 10) ≠ [] := by
    intro hcon
    have hle : p.queue.length ≤ (page - 1) * 10 := by
      have := congrArg List.length hcon
      simpa [Nat.sub_eq_zero_iff_le] using this
    omega
  have hslice : (p.queue.drop ((page - 1) * 10)).take 10 ≠ [] := by
    cases hd : p.queue.drop ((page - 1) * 10) with
    | nil => exact absurd hd hdrop
    | cons a as => simp [hd]
  obtain ⟨t, ht⟩ :=
    Option.isSome_iff_exists.mp (List.getLast?_isSome.mpr hslice)
  refine ⟨t, ht, ?_⟩
  simp only [queueCmd, if_neg h1]
  rw [queuetimeLoop_getLast, ht]

/-- Witness for C10 at the two-track sample queue, page 1. -/
theorem queue_time_is_last_of_page_witness :
    ∃ t, ((sampleQueuePlayer.queue.drop ((1 - 1) * 10)).take 10).getLast? = some t ∧
      queueCmd 1 sampleQueuePlayer =
        QueueOutcome.sent
          ("**" ++ toString sampleQueuePlayer.queue.length
            ++ " tracks**\ntotal queue time = "
            ++ format_time t.duration ++ "\n\n"
            ++ queueListLoop "" ((1 - 1) * 10)
                ((sampleQueuePlayer.queue.drop ((1 - 1) * 10)).take 10))
          ("Viewing page " ++ toString 1 ++ "/"
            ++ toString ((sampleQueuePlayer.queue.length + 9) / 10)) :=
  queue_time_is_last_of_page sampleQueuePlayer 1 (by decide) (by decide) (by decide)

end MusicCog
